import Mathlib

/-!
Shallow embedding of the NutriChatBot core (src/app.py and src/embeddings.py):
the CSV loader (`load_data`), the Chroma reindexing path (`index_nutrition_data`),
the RAG query path (`rag_query`), and the three direct menu actions (recipe,
weekly plan, healthy substitute), together with theorems settling the frozen
claims about them.

Modelling conventions:
* A pandas DataFrame is a `Csv`: a list of column names plus rows of string
  cells (the cells stand for the `astype(str)` rendering pandas would produce;
  the concrete inputs in the claims are whole numbers, whose CSV text and
  string rendering coincide).
* The Chroma vector store is `Store := Option Collection` for the single
  collection name `nutrition` the program uses; `none` means the collection
  does not exist.  `client.delete_collection` inside `try/except: pass` maps to
  setting the store to `none` unconditionally; `client.get_collection` on a
  missing collection raises, which maps to `Except.error`.
* The external nearest-neighbour search of `collection.query` is a parameter
  `rank : Ranker`; the Chroma contract (results come from the stored documents)
  is the predicate `RankValid`.
* Chat-completion calls are reified as `ModelCall` values (prompt plus
  generation config); temperatures are exact rationals, `0.2 = 1/5` etc.
* In src/embeddings.py the name `collection` is undefined at the
  `collection.add(...)` call site (the `get_or_create_collection` lines are
  commented out), so a nonempty add raises `NameError`; the embedding models
  this faithfully as `IndexErr.nameErrorCollectionUndefined`.
-/

namespace NutriChatBot

deriving instance DecidableEq for Except

/-- A tabular frame: header `cols` and rows of string cells, each row aligned
positionally with `cols` (as produced by reading a delimited file). -/
structure Csv where
  cols : List String
  rows : List (List String)
  deriving DecidableEq, Repr

/-- Rows all have the same width as the header (true of any frame read from a CSV). -/
def Aligned (csv : Csv) : Prop :=
  ∀ r ∈ csv.rows, r.length = csv.cols.length

instance (csv : Csv) : Decidable (Aligned csv) := by
  unfold Aligned; infer_instance

/-- Index of the first occurrence of a column name in a header. -/
def idx? (c : String) : List String → Option Nat
  | [] => none
  | x :: xs => if x = c then some 0 else (idx? c xs).map (· + 1)

/-- Column access by name as the list of cells of that column (`none` when the
column is absent, where pandas raises `KeyError`). -/
def col? (csv : Csv) (c : String) : Option (List String) :=
  (idx? c csv.cols).map (fun i => csv.rows.map (fun r => r.getD i ""))

/-- Column access for a column known to be present (defaulting to `[]`). -/
def colD (csv : Csv) (c : String) : List String :=
  (col? csv c).getD []

/-- Column assignment `df[c] = vals`: overwrite the column in place when the
name already exists, otherwise append it on the right, as pandas does. -/
def setCol (csv : Csv) (c : String) (vals : List String) : Csv :=
  match idx? c csv.cols with
  | some i => ⟨csv.cols, (csv.rows.zip vals).map (fun rv => rv.1.set i rv.2)⟩
  | none => ⟨csv.cols ++ [c], (csv.rows.zip vals).map (fun rv => rv.1 ++ [rv.2])⟩

/-- Column-name normalization of app.py line 47 (pandas str.lower followed by
str.replace of space with underscore): lowercase every character and replace
each space with an underscore. -/
def normCol (s : String) : String :=
  String.mk (s.data.map (fun ch => if ch = ' ' then '_' else ch.toLower))

/-- The frame after header normalization (rows untouched). -/
def normFrame (csv : Csv) : Csv :=
  ⟨csv.cols.map normCol, csv.rows⟩

/-- The fixed description template of app.py lines 51–54, per record. -/
def descTemplate (name calories proteins fat carbohydrate : String) : String :=
  name ++ " has " ++ calories ++ " calories, " ++ proteins ++ "g protein, " ++
    fat ++ "g fat, and " ++ carbohydrate ++ "g carbohydrate."

/-- The vectorized description synthesis: the template applied index-wise to
the five field columns. -/
def buildDescs : List String → List String → List String → List String →
    List String → List String
  | n :: ns, c :: cs, p :: ps, f :: fs, b :: bs =>
      descTemplate n c p f b :: buildDescs ns cs ps fs bs
  | _, _, _, _, _ => []

/-- One indexed document of the vector store. -/
structure Doc where
  id : String
  document : String
  metadata : List (String × String)
  deriving DecidableEq, Repr

/-- The documents of the `nutrition` collection. -/
abbrev Collection := List Doc

/-- The vector store restricted to the one collection name the program uses;
`none` means no `nutrition` collection exists. -/
abbrev Store := Option Collection

/-- Failures of `index_nutrition_data` (src/embeddings.py lines 59–68):
reading the `description` column of a frame that lacks it raises `KeyError`;
the `collection.add` call raises `NameError` because `collection` is an
undefined name (its creation is commented out). -/
inductive IndexErr where
  | keyErrorDescription
  | nameErrorCollectionUndefined
  deriving DecidableEq, Repr

/-- src/embeddings.py `index_nutrition_data(df, client)`:
delete any existing `nutrition` collection (absence ignored), read the
`description` column, build metadatas (every column except `description`) and
ids `doc_<i>`, then — only when there is at least one document — call
`collection.add`, which raises `NameError` since `collection` is undefined. -/
def index_nutrition_data (df : Csv) (store : Store) : Except IndexErr Unit × Store :=
  let store1 : Store := none
  match col? df "description" with
  | none => (Except.error IndexErr.keyErrorDescription, store1)
  | some documents =>
    let metadatas := df.rows.map (fun r =>
      (df.cols.zip r).filter (fun p => p.1 ≠ "description"))
    let ids := (List.range documents.length).map (fun i => "doc_" ++ toString i)
    if documents.isEmpty then
      (Except.ok (), store1)
    else
      (Except.error IndexErr.nameErrorCollectionUndefined, store1)

/-- Sampling parameters of a chat-completion call (`generation_config`). -/
structure GenConfig where
  temperature : ℚ
  max_output_tokens : ℕ
  deriving DecidableEq, Repr

/-- A reified chat-completion call: the prompt and its generation config. -/
structure ModelCall where
  prompt : String
  config : GenConfig
  deriving DecidableEq, Repr

/-- Failure of the retrieval path: `client.get_collection` on the `nutrition`
collection raises when the collection does not exist. -/
inductive RagErr where
  | collectionNotFound
  deriving DecidableEq, Repr

/-- The external nearest-neighbour ranking performed by the vector store:
given the stored documents and a query, the similarity-ordered result list. -/
abbrev Ranker := Collection → String → List Doc

/-- The Chroma contract for `collection.query`: results are drawn from the
stored documents (stated as: the ranked list is a sublist of the collection). -/
def RankValid (rank : Ranker) : Prop :=
  ∀ (c : Collection) (q : String), (rank c q).Sublist c

/-- The documents field of the `collection.query` result:
one list of up to `n` document texts per query text (here a single query). -/
def chromaQueryDocs (rank : Ranker) (c : Collection) (q : String) (n : ℕ) :
    List (List String) :=
  [((rank c q).take n).map (fun d => d.document)]

/-- The context accumulation loop of src/embeddings.py lines 86–90: append a
bulleted line per retrieved document, in order. -/
def buildContext (docLists : List (List String)) : String :=
  docLists.foldl (fun acc dl => dl.foldl (fun a d => a ++ "- " ++ d ++ "\n") acc) ""

/-- The bulleted rendering of a document list: `- <doc>\n` per document. -/
def bulletJoin : List String → String
  | [] => ""
  | d :: ds => "- " ++ d ++ "\n" ++ bulletJoin ds

/-- The RAG prompt template of src/embeddings.py lines 93–104 (nonempty
context), transcribed verbatim from the f-string, indentation included. -/
def ragPromptTemplate (context query : String) : String :=
  "\n        Anda adalah asisten gizi dan resep sehat. Gunakan informasi berikut sebagai konteks untuk menjawab pertanyaan pengguna.\n        Jika informasi yang diberikan tidak relevan atau tidak cukup untuk menjawab pertanyaan, nyatakan bahwa Anda tidak memiliki informasi yang cukup.\n\n        **Konteks Nutrisi:**\n        "
    ++ context ++
    "\n\n        **Pertanyaan Pengguna:**\n        "
    ++ query ++
    "\n\n        **Jawaban:**\n        "

/-- The fallback (no-context) template of src/embeddings.py lines 106–110,
transcribed verbatim from the f-string. -/
def fallbackTemplate (query : String) : String :=
  "\n        Anda adalah asisten gizi dan resep sehat. Saya tidak dapat menemukan informasi relevan berdasarkan pertanyaan Anda.\n        Pertanyaan Anda: "
    ++ query ++
    "\n        Apakah ada hal lain yang bisa saya bantu?\n        "

/-- src/embeddings.py `rag_query`: get the `nutrition` collection (raises
when absent), run the nearest-neighbour query, fold the documents into a
bulleted context, pick the context or fallback template, and send one
chat-completion call with temperature 0.2 and max_output_tokens 512. -/
def rag_query (rank : Ranker) (query : String) (store : Store) (n_results : ℕ) :
    Except RagErr ModelCall :=
  match store with
  | none => Except.error RagErr.collectionNotFound
  | some c =>
    let results := chromaQueryDocs rank c query n_results
    let context := buildContext results
    let prompt :=
      if context = "" then fallbackTemplate query
      else ragPromptTemplate context query
    Except.ok { prompt := prompt
                config := { temperature := 0.2, max_output_tokens := 512 } }

/-- Outcomes of app.py `load_data` as observed by the user:
`ok` — both success messages shown; `schemaMessage` — the explicit
explicit report that the CSV must contain the name and calories columns
(the schema-error report), shown before any write; `keyError` — a `KeyError` from accessing a
missing `proteins`/`fat`/`carbohydrate` column, caught by the generic
`except Exception` handler, before any write; `indexingError` — an exception
out of `index_nutrition_data`, caught by the same generic handler after the
SQL table has already been replaced. -/
inductive LoadOutcome where
  | ok
  | schemaMessage
  | keyError
  | indexingError
  deriving DecidableEq, Repr

/-- The frame the loader commits when all five field columns are present:
the header-normalized frame with the synthesized `description` column
(app.py lines 47–54, the vectorized description assignment rendered
index-wise by `buildDescs`). -/
def processedFrame (csv : Csv) : Csv :=
  setCol (normFrame csv) "description"
    (buildDescs (colD (normFrame csv) "name") (colD (normFrame csv) "calories")
      (colD (normFrame csv) "proteins") (colD (normFrame csv) "fat")
      (colD (normFrame csv) "carbohydrate"))

/-- app.py `load_data(conn)` acting on an already-read frame: normalize the
header; if `name` and `calories` are both present, synthesize the
`description` column from the five field columns (pandas raises `KeyError`
at the `proteins`/`fat`/`carbohydrate` column access when one is missing,
caught by the generic handler with the relational table and vector store
untouched); on success write the frame to the SQLite table `nutrition` with
in replace mode and then run `index_nutrition_data` on a fresh Chroma
client, mapping its exception (if any) to the generic handler. -/
def load_data (csv : Csv) (db : Option Csv) (store : Store) :
    LoadOutcome × Option Csv × Store :=
  let df := normFrame csv
  if "name" ∈ df.cols ∧ "calories" ∈ df.cols then
    if "proteins" ∈ df.cols ∧ "fat" ∈ df.cols ∧ "carbohydrate" ∈ df.cols then
      match index_nutrition_data (processedFrame csv) store with
      | (Except.ok _, store') =>
          (LoadOutcome.ok, some (processedFrame csv), store')
      | (Except.error _, store') =>
          (LoadOutcome.indexingError, some (processedFrame csv), store')
    else
      (LoadOutcome.keyError, db, store)
  else
    (LoadOutcome.schemaMessage, db, store)

/-- The recipe prompt of app.py lines 136–141, transcribed verbatim. -/
def recipe_prompt (ingredients : String) : String :=
  "\n                Buatkan saya ide resep makanan lengkap berdasarkan bahan-bahan berikut: "
    ++ ingredients ++
    ".\n                Sertakan nama resep, bahan-bahan lengkap (termasuk yang tidak disebutkan jika umum),\n                dan langkah-langkah pembuatannya yang jelas.\n                Format jawaban Anda dalam bahasa Indonesia yang mudah dipahami.\n                "

/-- The weekly-menu prompt of app.py lines 160–165, transcribed verbatim. -/
def menu_prompt (daily_calories : ℤ) : String :=
  "\n                Buatkan rencana menu makanan sehat untuk satu minggu (7 hari) dengan target rata-rata "
    ++ toString daily_calories ++
    " kalori per hari.\n                Sertakan sarapan, makan siang, makan malam, dan dua camilan.\n                Berikan ide makanan yang bervariasi dan seimbang secara nutrisi.\n                Format jawaban Anda dalam bahasa Indonesia dengan struktur per hari (contoh: Senin: Sarapan, Makan Siang, dst.).\n                "

/-- The healthy-alternative prompt of app.py lines 184–188, transcribed
verbatim (\x27 is the ASCII apostrophe around the ingredient). -/
def alternative_prompt (ingredient : String) : String :=
  "\n                Berikan beberapa alternatif sehat untuk bahan makanan \x27"
    ++ ingredient ++
    "\x27.\n                Sertakan mengapa alternatif tersebut lebih sehat dan bagaimana cara menggunakannya.\n                Format jawaban Anda dalam bahasa Indonesia.\n                "

/-- The Masak-Apa-Hari-Ini branch (app.py lines 136–144): one
chat-completion call with temperature 0.3 and max_output_tokens 512. -/
def recipeAction (ingredients : String) : ModelCall :=
  { prompt := recipe_prompt ingredients
    config := { temperature := 0.3, max_output_tokens := 512 } }

/-- The Perencana-Menu-Mingguan branch (app.py lines 156–168): the
`st.number_input` widget with `min_value=1000, max_value=5000` accepts a
daily-calorie value only inside that range (out-of-range input is a widget
validation error and the handler never runs), and an accepted value leads to
one chat-completion call with temperature 0.2 and max_output_tokens 2048.
`none` means no model call is made. -/
def weeklyPlanAction (daily_calories : ℤ) : Option ModelCall :=
  if 1000 ≤ daily_calories ∧ daily_calories ≤ 5000 then
    some { prompt := menu_prompt daily_calories
           config := { temperature := 0.2, max_output_tokens := 2048 } }
  else
    none

/-- The Alternatif-Sehat branch (app.py lines 184–191): one
chat-completion call with temperature 0.5 and max_output_tokens 256. -/
def substituteAction (ingredient : String) : ModelCall :=
  { prompt := alternative_prompt ingredient
    config := { temperature := 0.5, max_output_tokens := 256 } }

lemma idx?_eq_none_iff (c : String) (l : List String) : idx? c l = none ↔ c ∉ l := by
  induction l with
  | nil => simp [idx?]
  | cons x xs ih =>
    by_cases h : x = c
    · simp [idx?, h]
    · simp [idx?, h, ih, Ne.symm h]

lemma idx?_append_not_mem (c : String) (l : List String) (h : c ∉ l) :
    idx? c (l ++ [c]) = some l.length := by
  induction l with
  | nil => simp [idx?]
  | cons x xs ih =>
    have hx : x ≠ c := fun he => h (he ▸ List.mem_cons_self x xs)
    have hxs : c ∉ xs := fun hm => h (List.mem_cons_of_mem x hm)
    simp [idx?, hx, ih hxs]

lemma mem_of_idx?_eq_some (c : String) (l : List String) (i : ℕ)
    (h : idx? c l = some i) : c ∈ l := by
  by_contra hc
  rw [(idx?_eq_none_iff c l).2 hc] at h
  exact Option.noConfusion h

lemma colD_length (csv : Csv) (c : String) (h : c ∈ csv.cols) :
    (colD csv c).length = csv.rows.length := by
  unfold colD col?
  cases hidx : idx? c csv.cols with
  | none => exact absurd ((idx?_eq_none_iff c csv.cols).1 hidx) (not_not_intro h)
  | some i => simp

lemma setCol_cols (csv : Csv) (c : String) (vals : List String) :
    (setCol csv c vals).cols =
      if c ∈ csv.cols then csv.cols else csv.cols ++ [c] := by
  unfold setCol
  cases hidx : idx? c csv.cols with
  | none => rw [if_neg ((idx?_eq_none_iff c csv.cols).1 hidx)]
  | some i => rw [if_pos (mem_of_idx?_eq_some c csv.cols i hidx)]

lemma map_append_getD (n : ℕ) (rows : List (List String)) (vals : List String)
    (ha : ∀ r ∈ rows, r.length = n) (hlen : vals.length = rows.length) :
    (rows.zip vals).map (fun rv => (rv.1 ++ [rv.2]).getD n "") = vals := by
  induction rows generalizing vals with
  | nil =>
    cases vals with
    | nil => simp
    | cons v vs => simp at hlen
  | cons r rs ih =>
    cases vals with
    | nil => simp at hlen
    | cons v vs =>
      simp only [List.zip_cons_cons, List.map_cons]
      have hr : r.length = n := ha r (List.mem_cons_self r rs)
      have hhead : (r ++ [v]).getD n "" = v := by
        rw [← hr]
        simp [List.getD_append_right]
      rw [hhead, ih vs (fun x hx => ha x (List.mem_cons_of_mem r hx)) (by simpa using hlen)]

lemma col?_setCol_fresh (csv : Csv) (c : String) (vals : List String)
    (hc : c ∉ csv.cols) (ha : Aligned csv) (hlen : vals.length = csv.rows.length) :
    col? (setCol csv c vals) c = some vals := by
  unfold setCol
  rw [(idx?_eq_none_iff c csv.cols).2 hc]
  unfold col?
  simp only [idx?_append_not_mem c csv.cols hc, Option.map_some']
  rw [List.map_map]
  congr 1
  exact map_append_getD csv.cols.length csv.rows vals ha hlen

lemma buildDescs_length (n : ℕ) (ns cs ps fs bs : List String)
    (h1 : ns.length = n) (h2 : cs.length = n) (h3 : ps.length = n)
    (h4 : fs.length = n) (h5 : bs.length = n) :
    (buildDescs ns cs ps fs bs).length = n := by
  induction ns generalizing cs ps fs bs n with
  | nil =>
    cases cs <;> cases ps <;> cases fs <;> cases bs <;> simp_all [buildDescs]
  | cons a as ih =>
    cases cs with
    | nil => simp only [List.length_cons] at h1; simp only [List.length_nil] at h2; omega
    | cons c cs' =>
      cases ps with
      | nil => simp only [List.length_cons] at h1; simp only [List.length_nil] at h3; omega
      | cons p ps' =>
        cases fs with
        | nil => simp only [List.length_cons] at h1; simp only [List.length_nil] at h4; omega
        | cons f fs' =>
          cases bs with
          | nil => simp only [List.length_cons] at h1; simp only [List.length_nil] at h5; omega
          | cons b bs' =>
            simp only [buildDescs, List.length_cons] at *
            have : (buildDescs as cs' ps' fs' bs').length = n - 1 :=
              ih (n - 1) cs' ps' fs' bs' (by omega) (by omega) (by omega) (by omega) (by omega)
            omega


lemma foldl_bullet (docs : List String) (init : String) :
    docs.foldl (fun a d => a ++ "- " ++ d ++ "\n") init = init ++ bulletJoin docs := by
  induction docs generalizing init with
  | nil => simp [bulletJoin]
  | cons d ds ih =>
    rw [List.foldl_cons, ih]
    simp [bulletJoin, String.append_assoc]

lemma bulletJoin_ne_empty (d : String) (ds : List String) : bulletJoin (d :: ds) ≠ "" := by
  intro h
  have hlen := congrArg String.length h
  simp [bulletJoin, String.length_append] at hlen
  exact absurd hlen.1.1.1 (by decide)

lemma buildContext_single (docs : List String) :
    buildContext [docs] = bulletJoin docs := by
  simp [buildContext, foldl_bullet]

lemma rag_query_some (rank : Ranker) (query : String) (c : Collection) (n : ℕ) :
    rag_query rank query (some c) n =
      Except.ok
        { prompt :=
            if ((rank c query).take n).map (fun d => d.document) = [] then
              fallbackTemplate query
            else
              ragPromptTemplate
                (bulletJoin (((rank c query).take n).map (fun d => d.document))) query
          config := { temperature := 0.2, max_output_tokens := 512 } } := by
  cases h : ((rank c query).take n).map (fun d => d.document) with
  | nil =>
    simp [rag_query, chromaQueryDocs, buildContext_single, h, bulletJoin]
  | cons d ds =>
    simp [rag_query, chromaQueryDocs, buildContext_single, h, bulletJoin_ne_empty d ds]

lemma index_store_none (df : Csv) (store : Store) :
    (index_nutrition_data df store).2 = none := by
  unfold index_nutrition_data
  cases col? df "description" with
  | none => rfl
  | some documents => by_cases h : documents.isEmpty <;> simp [h]

lemma index_nonempty_fails (df : Csv) (store : Store) (h : df.rows ≠ []) :
    index_nutrition_data df store =
      (Except.error (if "description" ∈ df.cols then
          IndexErr.nameErrorCollectionUndefined else IndexErr.keyErrorDescription),
        none) := by
  unfold index_nutrition_data
  cases hidx : idx? "description" df.cols with
  | none =>
    have hmem := (idx?_eq_none_iff "description" df.cols).1 hidx
    simp [col?, hidx, hmem]
  | some i =>
    have hmem := mem_of_idx?_eq_some "description" df.cols i hidx
    have hne : (df.rows.map (fun r => r.getD i "")).isEmpty = false := by
      simp [List.isEmpty_iff, h]
    simp [col?, hidx, hmem, hne]
    exact h

lemma index_empty_ok (df : Csv) (store : Store)
    (hdesc : "description" ∈ df.cols) (hrows : df.rows = []) :
    index_nutrition_data df store = (Except.ok (), none) := by
  unfold index_nutrition_data
  cases hidx : idx? "description" df.cols with
  | none => exact absurd ((idx?_eq_none_iff "description" df.cols).1 hidx) (not_not_intro hdesc)
  | some i => simp [col?, hidx, hrows]

lemma index_ok_rows_nil (df : Csv) (store : Store)
    (h : (index_nutrition_data df store).1 = Except.ok ()) : df.rows = [] := by
  by_contra hne
  rw [index_nonempty_fails df store hne] at h
  exact Except.noConfusion h


lemma load_data_committed (csv : Csv) (db : Option Csv) (store : Store)
    (h1 : "name" ∈ (normFrame csv).cols) (h2 : "calories" ∈ (normFrame csv).cols)
    (h3 : "proteins" ∈ (normFrame csv).cols) (h4 : "fat" ∈ (normFrame csv).cols)
    (h5 : "carbohydrate" ∈ (normFrame csv).cols) :
    (load_data csv db store).2.1 = some (processedFrame csv) ∧
    (load_data csv db store).2.2 = none := by
  unfold load_data
  rw [if_pos ⟨h1, h2⟩, if_pos ⟨h3, h4, h5⟩]
  rcases hidx : index_nutrition_data (processedFrame csv) store with ⟨r, st⟩
  have hst : st = none := by
    have := index_store_none (processedFrame csv) store
    rw [hidx] at this
    exact this
  subst hst
  cases r <;> simp

lemma load_data_keyError (csv : Csv) (db : Option Csv) (store : Store)
    (h1 : "name" ∈ (normFrame csv).cols) (h2 : "calories" ∈ (normFrame csv).cols)
    (h3 : "proteins" ∉ (normFrame csv).cols ∨ "fat" ∉ (normFrame csv).cols ∨
      "carbohydrate" ∉ (normFrame csv).cols) :
    load_data csv db store = (LoadOutcome.keyError, db, store) := by
  unfold load_data
  rw [if_pos ⟨h1, h2⟩, if_neg]
  intro ⟨hp, hf, hc⟩
  rcases h3 with h | h | h <;> exact h (by assumption)

lemma load_data_schemaMessage (csv : Csv) (db : Option Csv) (store : Store)
    (h : "name" ∉ (normFrame csv).cols ∨ "calories" ∉ (normFrame csv).cols) :
    load_data csv db store = (LoadOutcome.schemaMessage, db, store) := by
  unfold load_data
  rw [if_neg]
  intro ⟨hn, hc⟩
  rcases h with h | h <;> exact h (by assumption)

/-- C1 (counterexample): the claim says a failed reindex leaves the vector
store as if the reindex had never started.  False: reindexing a one-record
table over a store holding an existing `nutrition` collection fails (the
undefined `collection` name) after the old collection has already been
deleted, so the store is `none`, not the original collection. -/
theorem c1_counterexample :
    (index_nutrition_data ⟨["name", "description"], [["Apel", "Apel has 52 calories."]]⟩
        (some [{ id := "doc_0", document := "old doc", metadata := [] }])).1 =
      Except.error IndexErr.nameErrorCollectionUndefined ∧
    (index_nutrition_data ⟨["name", "description"], [["Apel", "Apel has 52 calories."]]⟩
        (some [{ id := "doc_0", document := "old doc", metadata := [] }])).2 ≠
      some [{ id := "doc_0", document := "old doc", metadata := [] }] := by
  constructor
  · rfl
  · decide

/-- C1 (amended): reindexing any table with at least one record fails, and
after the failure no `nutrition` collection exists at all — so no
partially-written collection is visible to queries — but the previously
existing collection has already been deleted, so the observable state is not
that from before the reindex. -/
theorem c1_reindex_failure (df : Csv) (store : Store) (h : df.rows ≠ []) :
    (index_nutrition_data df store).1 =
      Except.error (if "description" ∈ df.cols then IndexErr.nameErrorCollectionUndefined
        else IndexErr.keyErrorDescription) ∧
    (index_nutrition_data df store).2 = none := by
  rw [index_nonempty_fails df store h]
  exact ⟨rfl, rfl⟩

/-- C1 witness: the amended theorem at a concrete one-record table. -/
theorem c1_witness :
    (index_nutrition_data ⟨["name", "description"], [["Apel", "Apel has 52 calories."]]⟩
        (some [])).1 = Except.error IndexErr.nameErrorCollectionUndefined ∧
    (index_nutrition_data ⟨["name", "description"], [["Apel", "Apel has 52 calories."]]⟩
        (some [])).2 = none :=
  c1_reindex_failure ⟨["name", "description"], [["Apel", "Apel has 52 calories."]]⟩
    (some []) (by decide)

/-- C2 (counterexample): the claim says the Retriever never raises when the
`nutrition` collection does not exist.  False: `rag_query` calls
`client.get_collection`, which raises when the collection is absent, so the
call returns an error, not an empty result. -/
theorem c2_counterexample :
    rag_query (fun c _ => c) "Berapa kalori nasi goreng?" none 3 =
      Except.error RagErr.collectionNotFound ∧
    ¬ ∃ call, rag_query (fun c _ => c) "Berapa kalori nasi goreng?" none 3 =
      Except.ok call := by
  refine ⟨rfl, ?_⟩
  rintro ⟨call, hcall⟩
  rw [show rag_query (fun c _ => c) "Berapa kalori nasi goreng?" none 3 =
      Except.error RagErr.collectionNotFound from rfl] at hcall
  exact Except.noConfusion hcall

/-- C2 (amended): when the collection exists but is empty, retrieval yields
an empty result and the Answer Generator proceeds with the fallback
no-context prompt; when the collection does not exist, `get_collection`
raises and the error is surfaced instead of the fallback. -/
theorem c2_empty_collection (rank : Ranker) (query : String) (n : ℕ)
    (hrank : RankValid rank) :
    rag_query rank query (some []) n =
      Except.ok { prompt := fallbackTemplate query
                  config := { temperature := 0.2, max_output_tokens := 512 } } ∧
    rag_query rank query none n = Except.error RagErr.collectionNotFound := by
  constructor
  · have hnil : rank [] query = [] := List.sublist_nil.mp (hrank [] query)
    rw [rag_query_some]
    simp [hnil]
  · rfl

/-- C2 witness: the amended theorem at the identity ranking and a concrete
query. -/
theorem c2_witness :
    rag_query (fun c _ => c) "Berapa kalori nasi goreng?" (some []) 3 =
      Except.ok { prompt := fallbackTemplate "Berapa kalori nasi goreng?"
                  config := { temperature := 0.2, max_output_tokens := 512 } } ∧
    rag_query (fun c _ => c) "Berapa kalori nasi goreng?" none 3 =
      Except.error RagErr.collectionNotFound :=
  c2_empty_collection (fun c _ => c) "Berapa kalori nasi goreng?" 3
    (fun c _ => List.Sublist.refl c)

/-- C3: the loader synthesizes the `description` column by the fixed template
`<name> has <calories> calories, <proteins>g protein, <fat>g fat, and
<carbohydrate>g carbohydrate.` applied index-wise to the five field columns
(so it is a deterministic function of those fields alone), and on the record
`{name: Nasi Goreng, calories: 250, proteins: 8, fat: 10, carbohydrate: 35}`
it yields exactly the expected sentence. -/
theorem c3_description_template :
    (∀ (csv : Csv) (db : Option Csv) (store : Store),
      "name" ∈ (normFrame csv).cols → "calories" ∈ (normFrame csv).cols →
      "proteins" ∈ (normFrame csv).cols → "fat" ∈ (normFrame csv).cols →
      "carbohydrate" ∈ (normFrame csv).cols →
      "description" ∉ (normFrame csv).cols → Aligned csv →
      (load_data csv db store).2.1 = some (processedFrame csv) ∧
      col? (processedFrame csv) "description" =
        some (buildDescs (colD (normFrame csv) "name") (colD (normFrame csv) "calories")
          (colD (normFrame csv) "proteins") (colD (normFrame csv) "fat")
          (colD (normFrame csv) "carbohydrate"))) ∧
    ((load_data ⟨["Name", "Calories", "Proteins", "Fat", "Carbohydrate"],
        [["Nasi Goreng", "250", "8", "10", "35"]]⟩ none none).2.1 =
      some (processedFrame ⟨["Name", "Calories", "Proteins", "Fat", "Carbohydrate"],
        [["Nasi Goreng", "250", "8", "10", "35"]]⟩) ∧
    col? (processedFrame ⟨["Name", "Calories", "Proteins", "Fat", "Carbohydrate"],
        [["Nasi Goreng", "250", "8", "10", "35"]]⟩) "description" =
      some ["Nasi Goreng has 250 calories, 8g protein, 10g fat, and 35g carbohydrate."]) := by
  constructor
  · intro csv db store h1 h2 h3 h4 h5 hdesc halign
    refine ⟨(load_data_committed csv db store h1 h2 h3 h4 h5).1, ?_⟩
    unfold processedFrame
    apply col?_setCol_fresh
    · exact hdesc
    · intro r hr
      rw [halign r hr]
      simp [normFrame]
    · have hn : (colD (normFrame csv) "name").length = csv.rows.length :=
        colD_length _ _ h1
      have hc : (colD (normFrame csv) "calories").length = csv.rows.length :=
        colD_length _ _ h2
      have hp : (colD (normFrame csv) "proteins").length = csv.rows.length :=
        colD_length _ _ h3
      have hf : (colD (normFrame csv) "fat").length = csv.rows.length :=
        colD_length _ _ h4
      have hb : (colD (normFrame csv) "carbohydrate").length = csv.rows.length :=
        colD_length _ _ h5
      exact buildDescs_length csv.rows.length _ _ _ _ _ hn hc hp hf hb
  · exact ⟨rfl, by decide⟩

/-- C3 witness: the general part of the theorem at a concrete frame whose
header needs case normalization. -/
theorem c3_witness :
    (load_data ⟨["Name", "Calories", "Proteins", "Fat", "Carbohydrate"],
        [["Ayam Goreng", "260", "21", "19", "0"]]⟩ none none).2.1 =
      some (processedFrame ⟨["Name", "Calories", "Proteins", "Fat", "Carbohydrate"],
        [["Ayam Goreng", "260", "21", "19", "0"]]⟩) ∧
    col? (processedFrame ⟨["Name", "Calories", "Proteins", "Fat", "Carbohydrate"],
        [["Ayam Goreng", "260", "21", "19", "0"]]⟩) "description" =
      some (buildDescs ["Ayam Goreng"] ["260"] ["21"] ["19"] ["0"]) := by
  have h := c3_description_template.1
    ⟨["Name", "Calories", "Proteins", "Fat", "Carbohydrate"],
      [["Ayam Goreng", "260", "21", "19", "0"]]⟩ none none
    (by decide) (by decide) (by decide) (by decide) (by decide) (by decide) (by decide)
  exact ⟨h.1, by rw [h.2]; decide⟩

/-- C4: the RAG prompt is the context template with each retrieved document
embedded verbatim as a `- <doc>` bulleted line (in retrieval order, before
the question, inside the template whose text instructs the model to use the
context and admit insufficiency), and is exactly the fallback template when
the retrieved context is empty. -/
theorem c4_prompt_shape (rank : Ranker) (query : String) (c : Collection) (n : ℕ) :
    rag_query rank query (some c) n =
      Except.ok
        { prompt :=
            if ((rank c query).take n).map (fun d => d.document) = [] then
              fallbackTemplate query
            else
              ragPromptTemplate
                (bulletJoin (((rank c query).take n).map (fun d => d.document))) query
          config := { temperature := 0.2, max_output_tokens := 512 } } :=
  rag_query_some rank query c n

/-- C5 (counterexample): the claim says a missing required column always
yields the schema error.  False: with `proteins`, `fat`, `carbohydrate`
absent but `name` and `calories` present, the loader passes its schema check
and instead dies with a `KeyError` caught by the generic handler. -/
theorem c5_counterexample :
    load_data ⟨["name", "calories"], [["Nasi Goreng", "250"]]⟩ none none =
      (LoadOutcome.keyError, none, none) ∧
    LoadOutcome.keyError ≠ LoadOutcome.schemaMessage := by
  exact ⟨rfl, by decide⟩

/-- C5 (amended): a missing `name` or `calories` column (after
normalization) produces the explicit schema-error report with no partial
commit; a missing `proteins`, `fat` or `carbohydrate` column (with `name`
and `calories` present) instead aborts with a `KeyError` surfaced through
the generic handler — a different error — still with no partial commit. -/
theorem c5_required_columns (csv : Csv) (db : Option Csv) (store : Store) :
    (("name" ∉ (normFrame csv).cols ∨ "calories" ∉ (normFrame csv).cols) →
      load_data csv db store = (LoadOutcome.schemaMessage, db, store)) ∧
    ("name" ∈ (normFrame csv).cols → "calories" ∈ (normFrame csv).cols →
      ("proteins" ∉ (normFrame csv).cols ∨ "fat" ∉ (normFrame csv).cols ∨
        "carbohydrate" ∉ (normFrame csv).cols) →
      load_data csv db store = (LoadOutcome.keyError, db, store)) :=
  ⟨fun h => load_data_schemaMessage csv db store h,
   fun h1 h2 h3 => load_data_keyError csv db store h1 h2 h3⟩

/-- C5 witness: the amended theorem at concrete frames missing `name`
(schema error) and missing `proteins` (generic KeyError), with a nonempty
prior table left untouched. -/
theorem c5_witness :
    load_data ⟨["calories"], []⟩ (some ⟨["x"], [["y"]]⟩) none =
      (LoadOutcome.schemaMessage, some ⟨["x"], [["y"]]⟩, none) ∧
    load_data ⟨["name", "calories"], [["Nasi", "250"]]⟩ (some ⟨["x"], [["y"]]⟩) none =
      (LoadOutcome.keyError, some ⟨["x"], [["y"]]⟩, none) :=
  ⟨(c5_required_columns ⟨["calories"], []⟩ (some ⟨["x"], [["y"]]⟩) none).1
      (Or.inl (by decide)),
   (c5_required_columns ⟨["name", "calories"], [["Nasi", "250"]]⟩
      (some ⟨["x"], [["y"]]⟩) none).2 (by decide) (by decide) (Or.inl (by decide))⟩

/-- C6: every chat-completion call carries the fixed per-mode sampling
constants — RAG 0.2/512, RECIPE 0.3/512, WEEKLY_PLAN 0.2/2048, SUBSTITUTE
0.5/256 — independent of the input (the statement quantifies over all
inputs and fixes the config literally). -/
theorem c6_sampling_constants :
    (∀ (rank : Ranker) (query : String) (c : Collection) (n : ℕ), ∃ p,
      rag_query rank query (some c) n =
        Except.ok { prompt := p
                    config := { temperature := 0.2, max_output_tokens := 512 } }) ∧
    (∀ ingredients, (recipeAction ingredients).config =
      { temperature := 0.3, max_output_tokens := 512 }) ∧
    (∀ v, weeklyPlanAction v = none ∨
      weeklyPlanAction v =
        some { prompt := menu_prompt v,
               config := { temperature := 0.2, max_output_tokens := 2048 } }) ∧
    (∀ ingredient, (substituteAction ingredient).config =
      { temperature := 0.5, max_output_tokens := 256 }) := by
  refine ⟨fun rank query c n => ⟨_, rag_query_some rank query c n⟩,
    fun _ => rfl, ?_, fun _ => rfl⟩
  intro v
  unfold weeklyPlanAction
  split
  · exact Or.inr rfl
  · exact Or.inl rfl

/-- C7: the weekly-plan action accepts dailyCalories only in 1000..5000; any
value outside the range is rejected by the widget validation and no model
call is made. -/
theorem c7_weekly_plan_range (v : ℤ) (h : v < 1000 ∨ 5000 < v) :
    weeklyPlanAction v = none := by
  unfold weeklyPlanAction
  rw [if_neg]
  rintro ⟨h1, h2⟩
  rcases h with h | h <;> omega

/-- C7 witness: the rejected inputs 500 and 6000 from the claim. -/
theorem c7_witness :
    weeklyPlanAction 500 = none ∧ weeklyPlanAction 6000 = none :=
  ⟨c7_weekly_plan_range 500 (Or.inl (by decide)),
   c7_weekly_plan_range 6000 (Or.inr (by decide))⟩

/-- C8 (code bug evaluation): reindexing a one-record table is supposed to
insert one document `doc_0` carrying the description, but the code raises
`NameError` at `collection.add` — `collection` is an undefined name, its
creation being commented out — and inserts nothing. -/
theorem c8_undefined_collection :
    index_nutrition_data
        ⟨["name", "calories", "proteins", "fat", "carbohydrate", "description"],
          [["Nasi Goreng", "250", "8", "10", "35",
            "Nasi Goreng has 250 calories, 8g protein, 10g fat, and 35g carbohydrate."]]⟩
        none =
      (Except.error IndexErr.nameErrorCollectionUndefined, none) := by decide

/-- C9: whenever the loader commits, the committed `nutrition` table is a
function of the new input alone (two runs over different prior tables and
stores commit the identical frame), and its header is the input header
normalized by lowercasing and space-to-underscore replacement (plus the
appended `description` column when absent). -/
theorem c9_normalize_and_replace (csv : Csv) (db db' : Option Csv)
    (store store' : Store)
    (h1 : "name" ∈ (normFrame csv).cols) (h2 : "calories" ∈ (normFrame csv).cols)
    (h3 : "proteins" ∈ (normFrame csv).cols) (h4 : "fat" ∈ (normFrame csv).cols)
    (h5 : "carbohydrate" ∈ (normFrame csv).cols) :
    (load_data csv db store).2.1 = some (processedFrame csv) ∧
    (load_data csv db' store').2.1 = some (processedFrame csv) ∧
    (processedFrame csv).cols =
      (if "description" ∈ csv.cols.map normCol then csv.cols.map normCol
       else csv.cols.map normCol ++ ["description"]) := by
  refine ⟨(load_data_committed csv db store h1 h2 h3 h4 h5).1,
    (load_data_committed csv db' store' h1 h2 h3 h4 h5).1, ?_⟩
  unfold processedFrame
  rw [setCol_cols]
  rfl

/-- C9 witness: the theorem at a concrete frame (header with capitals and a
space) over two different prior tables. -/
theorem c9_witness :
    (load_data ⟨["Name", "Calories", "Proteins", "Fat", "Carbohydrate"],
        [["Soto Ayam", "312", "24", "14", "19"]]⟩ none none).2.1 =
      some (processedFrame ⟨["Name", "Calories", "Proteins", "Fat", "Carbohydrate"],
        [["Soto Ayam", "312", "24", "14", "19"]]⟩) ∧
    (load_data ⟨["Name", "Calories", "Proteins", "Fat", "Carbohydrate"],
        [["Soto Ayam", "312", "24", "14", "19"]]⟩ (some ⟨["old"], [["t"]]⟩)
        (some [])).2.1 =
      some (processedFrame ⟨["Name", "Calories", "Proteins", "Fat", "Carbohydrate"],
        [["Soto Ayam", "312", "24", "14", "19"]]⟩) ∧
    (processedFrame ⟨["Name", "Calories", "Proteins", "Fat", "Carbohydrate"],
        [["Soto Ayam", "312", "24", "14", "19"]]⟩).cols =
      (if "description" ∈ (["Name", "Calories", "Proteins", "Fat",
          "Carbohydrate"].map normCol) then
        ["Name", "Calories", "Proteins", "Fat", "Carbohydrate"].map normCol
       else ["Name", "Calories", "Proteins", "Fat", "Carbohydrate"].map normCol
          ++ ["description"]) :=
  c9_normalize_and_replace ⟨["Name", "Calories", "Proteins", "Fat", "Carbohydrate"],
      [["Soto Ayam", "312", "24", "14", "19"]]⟩ none (some ⟨["old"], [["t"]]⟩)
    none (some []) (by decide) (by decide) (by decide) (by decide) (by decide)

/-- C10: reindexing a zero-record table succeeds, still deletes any existing
`nutrition` collection and inserts nothing, so afterwards no collection
exists and a subsequent retrieval finds no collection (it errors at
`get_collection`); moreover the empty table is the only input on which
reindex succeeds at all. -/
theorem c10_empty_table_reindex (df : Csv) (store : Store)
    (hdesc : "description" ∈ df.cols) (hrows : df.rows = []) :
    index_nutrition_data df store = (Except.ok (), none) ∧
    (∀ (rank : Ranker) (query : String) (n : ℕ),
      rag_query rank query (index_nutrition_data df store).2 n =
        Except.error RagErr.collectionNotFound) ∧
    (∀ (df₂ : Csv) (store₂ : Store),
      (index_nutrition_data df₂ store₂).1 = Except.ok () → df₂.rows = []) := by
  have hmain := index_empty_ok df store hdesc hrows
  refine ⟨hmain, fun rank query n => ?_,
    fun df₂ store₂ h => index_ok_rows_nil df₂ store₂ h⟩
  rw [show (index_nutrition_data df store).2 = none by rw [hmain]]
  rfl

/-- C10 witness: the theorem at a concrete empty table over a store holding
an old collection. -/
theorem c10_witness :
    index_nutrition_data ⟨["name", "description"], []⟩
        (some [{ id := "doc_0", document := "old", metadata := [] }]) =
      (Except.ok (), none) ∧
    rag_query (fun c _ => c) "Berapa kalori?"
        (index_nutrition_data ⟨["name", "description"], []⟩
          (some [{ id := "doc_0", document := "old", metadata := [] }])).2 3 =
      Except.error RagErr.collectionNotFound :=
  ⟨(c10_empty_table_reindex ⟨["name", "description"], []⟩
      (some [{ id := "doc_0", document := "old", metadata := [] }])
      (by decide) rfl).1,
   (c10_empty_table_reindex ⟨["name", "description"], []⟩
      (some [{ id := "doc_0", document := "old", metadata := [] }])
      (by decide) rfl).2.1 (fun c _ => c) "Berapa kalori?" 3⟩

end NutriChatBot

